import Mathlib

/-!
A shallow embedding of `src/inquirer/questions.py` (python-inquirer).

It models the dynamic values the module manipulates, the property-resolution
protocol (`Question._solve`), the validation pipeline (`Question.validate`),
choice materialization (`Question.choices`), `TaggedValue` equality, and the
`Path` question's filesystem validation sub-engine (`is_pathname_valid`,
`Path.validate`, `Path.__init__`).

Modelling conventions:
* The host is a POSIX system (`sys.platform != "win32"`, path separator `/`,
  `os.path.splitdrive` is the identity on the path component), matching the
  non-Windows branches of the source.
* Filesystem probes (`os.path.isfile`, `os.path.isdir`, `os.path.exists`,
  `os.lstat`, `os.path.abspath`, the home directory) are environment inputs,
  so they are fields of an explicit `OS` record.
* Python exceptions become an error type threaded through `Except`.
* Machine-independent Python semantics (truthiness, `==` including the
  reflected `TaggedValue.__eq__`, `str()` forms, `str.format` named-field
  substitution) are translated to executable functions below.
-/

namespace Inquirer

/-- Python runtime values relevant to the questions module: `None`, booleans,
integers, strings, tuples, lists, and `TaggedValue(label, value)` instances
(class `TaggedValue`, `questions.py` lines 56-73).  Callables are modelled at
the property-spec level (`Spec.computed`), mirroring the `callable(prop)`
probe in `Question._solve`. -/
inductive Value where
  | none
  | bool (b : Bool)
  | int (n : Int)
  | str (s : String)
  | tuple (xs : List Value)
  | list (xs : List Value)
  | tagged (label : Value) (value : Value)

/-- The shared answers context: a mapping from question names to previously
accepted answer values (a Python dict, modelled as an association list with
unique keys). -/
abbrev Ctx := List (String × Value)

/-- Modelled from the spec: the error taxonomy of §7 together with the
built-in Python exceptions the source can raise.  The repository's
`inquirer/errors.py` module (imported by `questions.py`) is not under `src/`;
per §7, `validationError` is `ValidationError(value)` carrying the rejected
value, and `keyError` is the `TemplateResolutionError` produced when a
template references a missing answer key (Python's `KeyError` from
`str.format`).  `typeError`, `valueError` and `assertionError` are the
corresponding Python built-ins; `other` stands for any remaining exception,
e.g. `IndexError` from a positional format field. -/
inductive PyErr where
  | validationError (v : Value)
  | keyError (n : String)
  | typeError
  | valueError
  | assertionError
  | other

/-- Python truthiness (`bool(x)`) for the modelled values.  `TaggedValue`
defines neither `__bool__` nor `__len__`, so its instances are truthy. -/
def truthy : Value → Bool
  | .none => false
  | .bool b => b
  | .int n => if n = 0 then false else true
  | .str s => if s = "" then false else true
  | .tuple [] => false
  | .tuple (_ :: _) => true
  | .list [] => false
  | .list (_ :: _) => true
  | .tagged _ _ => true

/-- Remove every outer `TaggedValue` wrapper.  `TaggedValue.__eq__` compares
`self.value` with the other operand (recursing through nested tags), and any
non-`TaggedValue` left operand returns `NotImplemented`, deferring to the
reflected `TaggedValue.__eq__`; so Python `==` on these values only ever sees
the fully unwrapped operands. -/
def strip : Value → Value
  | .tagged _ v => strip v
  | .none => .none
  | .bool b => .bool b
  | .int n => .int n
  | .str s => .str s
  | .tuple xs => .tuple xs
  | .list xs => .list xs

theorem strip_sizeOf_le : ∀ (v : Value), sizeOf (strip v) ≤ sizeOf v
  | .tagged l v => by
      have ih := strip_sizeOf_le v
      simp only [strip]
      simp
      omega
  | .none => by simp [strip]
  | .bool b => by simp [strip]
  | .int n => by simp [strip]
  | .str s => by simp [strip]
  | .tuple xs => by simp [strip]
  | .list xs => by simp [strip]

/-- `int(b)` for a Python bool (Python bools are ints: `True == 1`). -/
def boolToInt (b : Bool) : Int := if b then 1 else 0

mutual
/-- Core of Python `==` on modelled values, assuming both operands have had
their outer `TaggedValue` wrappers removed by `strip`.  Mixed-type
comparisons are `False` (no exception), bools compare as their integer
values, tuples and lists compare elementwise (a tuple never equals a list),
and container elements are compared by full Python `==`, i.e. after
stripping their own tags. -/
def pyEqCore : Value → Value → Bool
  | .none, .none => true
  | .bool b, .bool c => if b = c then true else false
  | .bool b, .int n => if boolToInt b = n then true else false
  | .int n, .bool c => if n = boolToInt c then true else false
  | .int n, .int m => if n = m then true else false
  | .str s, .str t => if s = t then true else false
  | .tuple xs, .tuple ys => pyEqList xs ys
  | .list xs, .list ys => pyEqList xs ys
  | _, _ => false
termination_by a b => sizeOf a + sizeOf b
decreasing_by
  all_goals simp_wf
  all_goals omega

/-- Elementwise Python `==` on sequences of equal length. -/
def pyEqList : List Value → List Value → Bool
  | [], [] => true
  | x :: xs, y :: ys => pyEqCore (strip x) (strip y) && pyEqList xs ys
  | [], _ :: _ => false
  | _ :: _, [] => false
termination_by xs ys => sizeOf xs + sizeOf ys
decreasing_by
  all_goals simp_wf
  · have hx := strip_sizeOf_le x
    have hy := strip_sizeOf_le y
    omega
  · omega
end

/-- Python `==` on modelled values (`TaggedValue.__eq__`, lines 67-70,
together with the default reflected dispatch for the other types). -/
def pyEq (a b : Value) : Bool := pyEqCore (strip a) (strip b)

/-- Python `!=`: `TaggedValue.__ne__` returns `not self.__eq__(other)`
(line 72-73), and the default `__ne__` of the built-in types is also the
negation of `==` on these values. -/
def pyNe (a b : Value) : Bool := !(pyEq a b)

mutual
/-- Python `str(v)` for the modelled values.  `TaggedValue.__str__` returns
the label (line 61-62) and `TaggedValue.__repr__` returns the value
(line 64-65); the embedding assumes those are strings where a string is
demanded (otherwise CPython would raise `TypeError`, which no claim
exercises).  Container stringification uses `repr` of the elements, with
Python's trailing comma for 1-tuples. -/
def pyStr : Value → String
  | .none => "None"
  | .bool b => if b then "True" else "False"
  | .int n => toString n
  | .str s => s
  | .tuple [] => "()"
  | .tuple [x] => "(" ++ pyRepr x ++ ",)"
  | .tuple (x :: y :: rest) => "(" ++ pyRepr x ++ pyReprTail (y :: rest) ++ ")"
  | .list [] => "[]"
  | .list (x :: rest) => "[" ++ pyRepr x ++ pyReprTail rest ++ "]"
  | .tagged l _ => pyStr l
termination_by v => sizeOf v
decreasing_by
  all_goals simp_wf
  all_goals omega

/-- Python `repr(v)` for the modelled values (strings are quoted). -/
def pyRepr : Value → String
  | .none => "None"
  | .bool b => if b then "True" else "False"
  | .int n => toString n
  | .str s => "'" ++ s ++ "'"
  | .tuple [] => "()"
  | .tuple [x] => "(" ++ pyRepr x ++ ",)"
  | .tuple (x :: y :: rest) => "(" ++ pyRepr x ++ pyReprTail (y :: rest) ++ ")"
  | .list [] => "[]"
  | .list (x :: rest) => "[" ++ pyRepr x ++ pyReprTail rest ++ "]"
  | .tagged _ v => pyRepr v
termination_by v => sizeOf v
decreasing_by
  all_goals simp_wf
  all_goals omega

/-- `", " ++ repr(x)` for each remaining container element. -/
def pyReprTail : List Value → String
  | [] => ""
  | x :: rest => ", " ++ pyRepr x ++ pyReprTail rest
termination_by xs => sizeOf xs
decreasing_by
  all_goals simp_wf
  all_goals omega
end

/-- `answers.get(name)` on the shared context (first binding wins, keys are
unique in a dict). -/
def ctxGet (ctx : Ctx) (n : String) : Option Value :=
  match ctx with
  | [] => Option.none
  | (k, v) :: r => if k = n then some v else ctxGet r n

/-- Engine of Python `template.format(**answers)` for the fragment the
module exercises: literal characters, `\x7b\x7b`/`\x7d\x7d` escapes, and
simple named fields `\x7bname\x7d` replaced by `str(answers[name])`.
`mode = none` scans literal text; `mode = some acc` is inside a field whose
name characters so far are `acc` (reversed).  A lone closing brace or an
unterminated/nested field is a `ValueError`; an empty or all-digit field is
positional auto-numbering, an `IndexError` (`PyErr.other`) since `format`
receives no positional arguments; a named field absent from the context is a
`KeyError`.  (Conversion suffixes `!r`, format specs `:...`, and
attribute/index field paths are not modelled; the template theorems restrict
field names accordingly.) -/
def pyFmtA (ctx : Ctx) : Option (List Char) → List Char → Except PyErr (List Char)
  | Option.none, [] => .ok []
  | Option.none, '{' :: '{' :: r2 =>
    match pyFmtA ctx Option.none r2 with
    | .ok t => .ok ('{' :: t)
    | .error e => .error e
  | Option.none, '}' :: '}' :: r2 =>
    match pyFmtA ctx Option.none r2 with
    | .ok t => .ok ('}' :: t)
    | .error e => .error e
  | Option.none, '{' :: r => pyFmtA ctx (some []) r
  | Option.none, '}' :: _ => .error .valueError
  | Option.none, c :: r =>
    match pyFmtA ctx Option.none r with
    | .ok t => .ok (c :: t)
    | .error e => .error e
  | some _, [] => .error .valueError
  | some acc, '}' :: r =>
    if (acc.reverse).all Char.isDigit then .error .other
    else
      match ctxGet ctx (String.mk acc.reverse) with
      | some v =>
        match pyFmtA ctx Option.none r with
        | .ok t => .ok ((pyStr v).toList ++ t)
        | .error e => .error e
      | Option.none => .error (.keyError (String.mk acc.reverse))
  | some _, '{' :: _ => .error .valueError
  | some acc, c :: r => pyFmtA ctx (some (c :: acc)) r

/-- Python `s.format(**answers)` (`Question._solve`, line 124). -/
def pyFormat (ctx : Ctx) (s : String) : Except PyErr String :=
  match pyFmtA ctx Option.none s.toList with
  | .ok t => .ok (String.mk t)
  | .error e => .error e

/-- A property specification as `Question._solve` (lines 120-125) probes it:
a callable is invoked with the answers context plus call-specific arguments
(`Spec.computed`); any other value is `Spec.static` — if the value is a
string it is a template to be formatted against the context, otherwise it is
returned unchanged. -/
inductive Spec where
  | static (v : Value)
  | computed (f : Ctx → List Value → Except PyErr Value)

/-- `Question._solve(prop, *args)` (lines 120-125): callables are applied to
`(answers, *args)`; strings are formatted against the answers; anything else
is returned as-is. -/
def solve (ctx : Ctx) (prop : Spec) (args : List Value) : Except PyErr Value :=
  match prop with
  | .computed f => f ctx args
  | .static (.str t) =>
    match pyFormat ctx t with
    | .ok r => .ok (.str r)
    | .error e => .error e
  | .static v => .ok v

/-- The state of a `Question` object (lines 76-125): the raw property specs
stored by `__init__` plus the shared answers context (`self.answers`,
assigned by the driver). -/
structure Question where
  name : String
  _message : Spec
  _choices : Spec
  _default : Spec
  _ignore : Spec
  _validate : Spec
  answers : Ctx

/-- `Question.__init__` (lines 79-87): stores the specs; `choices or []`
replaces a falsy choices value with the empty list. -/
def Question.make (name : String) (message : Spec) (choices : Spec)
    (defaultSpec : Spec) (ignore : Spec) (validate : Spec) : Question :=
  { name := name
    _message := message
    _choices :=
      match choices with
      | .static v => if truthy v then .static v else .static (.list [])
      | c => c
    _default := defaultSpec
    _ignore := ignore
    _validate := validate
    answers := [] }

/-- The `message` property (lines 93-95). -/
def Question.message (q : Question) : Except PyErr Value :=
  solve q.answers q._message []

/-- The `ignore` property (lines 89-91): `bool(self._solve(self._ignore))`. -/
def Question.ignore (q : Question) : Except PyErr Bool :=
  match solve q.answers q._ignore [] with
  | .ok v => .ok (truthy v)
  | .error e => .error e

/-- The `default` property (lines 97-99):
`self.answers.get(self.name) or self._solve(self._default)` — Python `or`
returns the recorded answer only when it is truthy, else the resolved
configured default (`dict.get` yields `None` when the key is absent). -/
def Question.default (q : Question) : Except PyErr Value :=
  let a := (ctxGet q.answers q.name).getD Value.none
  if truthy a then .ok a else solve q.answers q._default []

/-- One step of `choices_generator` (lines 101-104): a 2-element tuple
becomes `TaggedValue(*choice)`, anything else passes through unchanged. -/
def tagChoice : Value → Value
  | .tuple [l, v] => .tagged l v
  | x => x

/-- Iterate the resolved choices spec and materialize it into a list
(`choices_generator`/`choices`, lines 101-108).  Lists and tuples map each
item through `tagChoice`; a string iterates its characters; a non-iterable
resolved value is a `TypeError`; a resolution error propagates. -/
def materializeChoices : Except PyErr Value → Except PyErr (List Value)
  | .ok (.list xs) => .ok (xs.map tagChoice)
  | .ok (.tuple xs) => .ok (xs.map tagChoice)
  | .ok (.str s) => .ok (s.toList.map fun c => Value.str (String.mk [c]))
  | .ok _ => .error .typeError
  | .error e => .error e

/-- The `choices` property (lines 106-108): re-resolves the spec against the
current answers and re-materializes from scratch on every access. -/
def Question.choices (q : Question) : Except PyErr (List Value) :=
  materializeChoices (solve q.answers q._choices [])

/-- `Question.validate(current)` (lines 110-118): resolve the validate spec
with the candidate; a truthy result succeeds; a raised `ValidationError`
propagates unchanged; any other exception or a falsy result is normalized to
`ValidationError(current)`. -/
def Question.validate (q : Question) (current : Value) : Except PyErr Unit :=
  match solve q.answers q._validate [current] with
  | .ok v => if truthy v then .ok () else .error (.validationError current)
  | .error (.validationError e) => .error (.validationError e)
  | .error _ => .error (.validationError current)

/-- `Text.__init__`'s default coercion (lines 131-134):
`str(default) if default and not callable(default) else default` — a truthy
non-callable default is coerced to its `str` form; a falsy or callable
default is stored unchanged. -/
def Text.makeDefault : Spec → Spec
  | .static v => if truthy v then .static (.str (pyStr v)) else .static v
  | s => s

/-- `Text.__init__` (lines 131-134): base construction with the coerced
default.  `Password` and `Editor` add no stored state relevant here. -/
def Text.make (name : String) (message : Spec) (choices : Spec) (d : Spec)
    (ignore : Spec) (validate : Spec) : Question :=
  Question.make name message choices (Text.makeDefault d) ignore validate

/-- The host environment seen by the path engine: the user's home directory
(`os.path.expanduser`), the filesystem metadata probes, and `os.path.abspath`
(only invoked when `normalize_to_absolute_path` is set, so modelled as an
abstract environment function).  `lstat_errno p = some e` means `os.lstat(p)`
raises `OSError` with `errno = e` (on POSIX the exception has no `winerror`
attribute); `Option.none` means the probe does not raise. -/
structure OS where
  home : String
  isfile : String → Bool
  isdir : String → Bool
  path_exists : String → Bool
  lstat_errno : String → Option Int
  abspath : String → String

/-- Windows-specific invalid-name code (line 171); unused on the POSIX host
modelled here, kept for reference. -/
def ERROR_INVALID_NAME : Int := 123

/-- `errno.ENAMETOOLONG` on Linux. -/
def ENAMETOOLONG : Int := 36

/-- `errno.ERANGE` on Linux (the second code the checker treats as a
name-validity fault, line 197). -/
def ERANGE : Int := 34

/-- `s.split("/")` (Python string split on the POSIX separator): adjacent
separators and leading/trailing separators yield empty segments. -/
def splitCharsSlash : List Char → List (List Char)
  | [] => [[]]
  | c :: r =>
    if c = '/' then [] :: splitCharsSlash r
    else
      match splitCharsSlash r with
      | g :: gs => (c :: g) :: gs
      | [] => [[c]]

/-- `pathname.split(os.path.sep)` as a list of strings. -/
def splitSlash (s : String) : List String :=
  (splitCharsSlash s.toList).map String.mk

/-- The body of the segment loop in `is_pathname_valid` (lines 190-198) on
POSIX: probe `os.lstat(x)`; an `OSError` whose `errno` is `ENAMETOOLONG` or
`ERANGE` makes the pathname invalid (`false`); any other outcome — success
or any other error — is ignored (`true`). -/
def probe (os : OS) (x : String) : Bool :=
  match os.lstat_errno x with
  | some e => if e = ENAMETOOLONG ∨ e = ERANGE then false else true
  | Option.none => true

/-- `is_pathname_valid(pathname)` (lines 174-202) on the POSIX host:
non-string or empty input is `False`; `os.path.splitdrive` leaves the path
unchanged; the root is `os.path.sep = "/"` and `assert os.path.isdir(root)`
raises `AssertionError` when it fails; each segment is probed with
`os.lstat("/" + segment)`, and an `OSError` whose `errno` is `ENAMETOOLONG`
or `ERANGE` makes the whole pathname invalid while any other probe outcome
is ignored; if no segment faults the pathname is valid.  (The `except
(ValueError, TypeError)` clause has nothing to catch in this embedding: none
of the modelled operations raise those.) -/
def is_pathname_valid (os : OS) (pathname : Value) : Except PyErr Bool :=
  match pathname with
  | .str s =>
    if s = "" then .ok false
    else if os.isdir "/" = false then .error .assertionError
    else .ok ((splitSlash s).all fun part => probe os ("/" ++ part))
  | _ => .ok false

/-- Boolean string-prefix test on the underlying character lists. -/
def listIsPrefix : List Char → List Char → Bool
  | [], _ => true
  | _ :: _, [] => false
  | c :: p, d :: s2 => if c = d then listIsPrefix p s2 else false

/-- `s.startswith(pre)`. -/
def strStartsWith (s pre : String) : Bool := listIsPrefix pre.toList s.toList

/-- `s.rstrip("/")`. -/
def rstripSlash (s : String) : String :=
  String.mk (s.toList.reverse.dropWhile (fun c => c = '/')).reverse

/-- `os.path.expanduser` on POSIX for the `~`/`~/...` forms: replace the
leading tilde by the home directory stripped of trailing separators, with a
bare separator as fallback for an empty result.  A `~user` form looks up
another user's home directory, an environment query outside this embedding;
it is modelled as CPython's unknown-user fallback, returning the path
unchanged. -/
def expanduser (os : OS) (path : String) : String :=
  if strStartsWith path "~" = false then path
  else if path = "~" ∨ strStartsWith path "~/" = true then
    let r := rstripSlash os.home ++ String.mk (path.toList.drop 1)
    if r = "" then "/" else r
  else path

/-- `os.path.basename` on POSIX: everything after the last separator. -/
def basename (p : String) : String := (splitSlash p).getLastD ""

/-- The state of a `Path` question (lines 205-223): the underlying text
question plus `_path_type`, `_exists` and `_normalize_to_absolute_path`.
`_exists` ranges over the documented `True`/`False`/`None` domain. -/
structure Path where
  q : Question
  _path_type : String
  _exists : Option Bool
  _normalize_to_absolute_path : Bool

/-- `Path.normalize_value` (lines 259-265): expand a leading home marker,
then optionally resolve to an absolute path. -/
def Path.normalize_value (os : OS) (p : Path) (value : String) : String :=
  let v := expanduser os value
  if p._normalize_to_absolute_path then os.abspath v else v

/-- `Path.validate(current)` (lines 225-257): run the base validation, reject
`None`, normalize, reject syntactically invalid pathnames, then apply the
existence policy selected by `_path_type` (`"file"`, `"directory"`, or the
final `elif` chain for any other tag).  Each rejection raises
`ValidationError` carrying the *normalized* value (the local `current` is
rebound at line 231).  A non-string, non-`None` candidate makes
`os.path.expanduser` raise `TypeError`, which propagates. -/
def Path.validate (os : OS) (p : Path) (current : Value) : Except PyErr Unit :=
  match Question.validate p.q current with
  | .error e => .error e
  | .ok _ =>
    match current with
    | .none => .error (.validationError Value.none)
    | .str s =>
      let cur := p.normalize_value os s
      match is_pathname_valid os (.str cur) with
      | .error e => .error e
      | .ok b =>
        if b = false then .error (.validationError (.str cur))
        else if p._path_type = "file" then
          if p._exists = Option.none ∧ basename cur = "" then
            .error (.validationError (.str cur))
          else if p._exists = some true ∧ os.isfile cur = false then
            .error (.validationError (.str cur))
          else if p._exists = some false ∧ os.isfile cur = true then
            .error (.validationError (.str cur))
          else .ok ()
        else if p._path_type = "directory" then
          if p._exists = Option.none ∧ basename cur ≠ "" then
            .error (.validationError (.str cur))
          else if p._exists = some true ∧ os.isdir cur = false then
            .error (.validationError (.str cur))
          else if p._exists = some false ∧ os.isdir cur = true then
            .error (.validationError (.str cur))
          else .ok ()
        else
          if p._exists = some true ∧ os.path_exists cur = false then
            .error (.validationError (.str cur))
          else if p._exists = some false ∧ os.path_exists cur = true then
            .error (.validationError (.str cur))
          else .ok ()
    | _ => .error .typeError

/-- `except errors.ValidationError: raise ValueError(...)` in `Path.__init__`
(lines 220-223): a `ValidationError` from validating the default becomes a
`ValueError`; any other exception propagates unchanged. -/
def wrapDefaultErr : PyErr → PyErr
  | .validationError _ => .valueError
  | e => e

/-- The `Path` object as assembled by `Path.__init__` (lines 212-217) before
the default check: the `Text`/`Question` chain stores the (coerced) default,
message `""`, no choices, `ignore=False`, and the given validate spec. -/
def Path.build (name : String) (d : Value) (path_type : String)
    (ex : Option Bool) (norm : Bool) (validate : Spec) : Path :=
  { q := Text.make name (.static (.str "")) (.static Value.none) (.static d)
          (.static (.bool false)) validate
    _path_type := path_type
    _exists := ex
    _normalize_to_absolute_path := norm }

/-- `Path.__init__` (lines 212-223): construct the object, then, when the
supplied default is not `None`, validate the *original* default value;
a `ValidationError` is re-raised as `ValueError` and any other exception
propagates, so construction fails. -/
def Path.make (os : OS) (name : String) (d : Value) (path_type : String)
    (ex : Option Bool) (norm : Bool) (validate : Spec) : Except PyErr Path :=
  let p := Path.build name d path_type ex norm validate
  match d with
  | .none => .ok p
  | _ =>
    match Path.validate os p d with
    | .ok _ => .ok p
    | .error e => .error (wrapDefaultErr e)

/-! ### Spec-side view of templates

A template is presented as its decomposition into literal runs and named
placeholders; `specSubst` is the substitution described by the spec's words,
to be compared with the source-derived `pyFormat` above. -/

/-- A syntactic piece of a template: a literal run or a named placeholder. -/
inductive Chunk where
  | lit (s : String)
  | ref (n : String)

/-- Characters allowed in a modelled placeholder name: no braces (they
delimit fields), and none of `str.format`'s conversion/spec/attribute/index
syntax (`!`, `:`, `.`, `[`), which the embedding does not model. -/
def nameCharOk (c : Char) : Bool :=
  if c = '{' ∨ c = '}' ∨ c = ':' ∨ c = '!' ∨ c = '.' ∨ c = '[' then false
  else true

/-- A well-formed chunk: literal runs carry no braces; placeholder names are
named fields (not empty/numeric positional fields) of allowed characters. -/
def chunkOk : Chunk → Bool
  | .lit s => s.toList.all fun c => if c = '{' ∨ c = '}' then false else true
  | .ref n => !(n.toList.all Char.isDigit) && n.toList.all nameCharOk

/-- Render a chunk back to template text. -/
def chunkText : Chunk → String
  | .lit s => s
  | .ref n => "\x7b" ++ n ++ "\x7d"

/-- Render a chunk list back to the template string it decomposes. -/
def tmplStr : List Chunk → String
  | [] => ""
  | c :: cs => chunkText c ++ tmplStr cs

/-- Modelled from the spec (§4.1): substitute every named placeholder with
the stringified value looked up in the context by that name; fail with
`TemplateResolutionError` (`PyErr.keyError`) if a referenced name is absent. -/
def specSubst (ctx : Ctx) : List Chunk → Except PyErr String
  | [] => .ok ""
  | .lit s :: cs =>
    match specSubst ctx cs with
    | .ok r => .ok (s ++ r)
    | .error e => .error e
  | .ref n :: cs =>
    match ctxGet ctx n with
    | some v =>
      match specSubst ctx cs with
      | .ok r => .ok (pyStr v ++ r)
      | .error e => .error e
    | Option.none => .error (.keyError n)

/-- The placeholder names a template references. -/
def chunkRefs : List Chunk → List String
  | [] => []
  | .ref n :: cs => n :: chunkRefs cs
  | .lit _ :: cs => chunkRefs cs

/-! ### Concrete fixtures used by witnesses and counterexamples -/

/-- A benign host: home `/h`, every directory probe succeeds, no file or
path exists, and `lstat` never raises. -/
def osW : OS :=
  { home := "/h"
    isfile := fun _ => false
    isdir := fun _ => true
    path_exists := fun _ => false
    lstat_errno := fun _ => Option.none
    abspath := fun s => s }

/-- A base question whose validate spec is the default `True`. -/
def qW : Question :=
  { name := "q"
    _message := .static (.str "")
    _choices := .static (.list [])
    _default := .static Value.none
    _ignore := .static (.bool false)
    _validate := .static (.bool true)
    answers := [] }

/-- `qW` in a session that already recorded the falsy answer `0` for `"q"`,
with configured default `5`. -/
def qC2 : Question := { qW with _default := .static (.int 5), answers := [("q", .int 0)] }

/-- `qW` in a session that already recorded the truthy answer `"ans"` for
`"q"`, with configured default `5`. -/
def qC2T : Question := { qW with _default := .static (.int 5), answers := [("q", .str "ans")] }

/-- `qW` with the spec's example choice list `[("Yes", 1), ("No", 0), 2]`. -/
def qC9 : Question :=
  { qW with _choices := .static (.list
      [.tuple [.str "Yes", .int 1], .tuple [.str "No", .int 0], .int 2]) }

/-- A `Path("p", path_type="file")` question (`exists` unspecified). -/
def pFile : Path := Path.build "p" Value.none "file" Option.none false (.static (.bool true))

/-- A `Path("p", path_type="directory")` question (`exists` unspecified). -/
def pDir : Path := Path.build "p" Value.none "directory" Option.none false (.static (.bool true))

/-- A `Path` question with an unrecognized `path_type` tag and `exists`
unspecified. -/
def pAny : Path := Path.build "p" Value.none "weird" Option.none false (.static (.bool true))

/-- The template `"hi \x7bname\x7d"` as chunks. -/
def csW : List Chunk := [.lit "hi ", .ref "name"]

/-- A context binding `name` to `"Ada"`. -/
def ctxW : Ctx := [("name", .str "Ada")]

/-! ### Claims -/

/-- C1: `Question.validate(candidate)` returns normally when resolving the
validate spec against `(answers, candidate)` yields a truthy result; a
`ValidationError` raised by the resolution itself propagates unchanged; any
other resolution error, or a falsy result, raises exactly
`ValidationError(candidate)`, discarding the original error's detail. -/
theorem C1_validate_pipeline (q : Question) (c : Value) :
    (∀ v, solve q.answers q._validate [c] = .ok v → truthy v = true →
        Question.validate q c = .ok ())
  ∧ (∀ v, solve q.answers q._validate [c] = .ok v → truthy v = false →
        Question.validate q c = .error (.validationError c))
  ∧ (∀ e, solve q.answers q._validate [c] = .error (.validationError e) →
        Question.validate q c = .error (.validationError e))
  ∧ (∀ e, solve q.answers q._validate [c] = .error e →
        (∀ x, e ≠ PyErr.validationError x) →
        Question.validate q c = .error (.validationError c)) := by
  refine ⟨?_, ?_, ?_, ?_⟩
  · intro v hs ht; simp [Question.validate, hs, ht]
  · intro v hs ht; simp [Question.validate, hs, ht]
  · intro e hs; simp [Question.validate, hs]
  · intro e hs hne
    cases e <;> first
      | exact absurd rfl (hne _)
      | simp [Question.validate, hs]

theorem C1_validate_pipeline_witness :
    Question.validate qW (.str "x") = .ok () :=
  (C1_validate_pipeline qW (.str "x")).1 (.bool true) rfl rfl

/-- C2 as stated is false: the recorded answer wins only when it is truthy.
`qC2` has the entry `0` recorded under its own name, yet `default` resolves
to the configured default `5`, because `answers.get(name) or ...` falls
through on a falsy recorded value. -/
theorem C2_default_cex :
    ctxGet qC2.answers qC2.name = some (.int 0)
  ∧ Question.default qC2 = .ok (.int 5)
  ∧ Value.int 5 ≠ Value.int 0 := by
  refine ⟨rfl, rfl, ?_⟩
  simp

/-- C2 (amended): if the context records a *truthy* value under the
question's name, `default` returns that value regardless of the configured
default; if the context has no entry — or records a falsy one — `default`
returns the resolved configured default. -/
theorem C2_default_amended (q : Question) :
    (∀ v, ctxGet q.answers q.name = some v → truthy v = true →
        Question.default q = .ok v)
  ∧ (ctxGet q.answers q.name = Option.none →
        Question.default q = solve q.answers q._default [])
  ∧ (∀ v, ctxGet q.answers q.name = some v → truthy v = false →
        Question.default q = solve q.answers q._default []) := by
  refine ⟨?_, ?_, ?_⟩
  · intro v hg ht; simp [Question.default, hg, ht]
  · intro hg; simp [Question.default, hg, truthy]
  · intro v hg ht; simp [Question.default, hg, ht]

theorem C2_default_amended_witness :
    Question.default qC2T = .ok (.str "ans") :=
  (C2_default_amended qC2T).1 (.str "ans") rfl rfl

/-- C6: if a `Path` question is constructed with a non-null default that
fails its own `validate`, construction itself fails (a `ValidationError`
surfaces as `ValueError`, anything else propagates); if the default passes
validation, or no default is supplied, construction succeeds. -/
theorem C6_default_validated_at_construction (os : OS) (name : String) (d : Value)
    (pt : String) (ex : Option Bool) (norm : Bool) (vs : Spec) :
    (d ≠ Value.none →
      ∀ e, Path.validate os (Path.build name d pt ex norm vs) d = .error e →
        Path.make os name d pt ex norm vs = .error (wrapDefaultErr e))
  ∧ (Path.validate os (Path.build name d pt ex norm vs) d = .ok () →
      Path.make os name d pt ex norm vs = .ok (Path.build name d pt ex norm vs))
  ∧ (Path.make os name Value.none pt ex norm vs
      = .ok (Path.build name Value.none pt ex norm vs)) := by
  refine ⟨?_, ?_, ?_⟩
  · intro hd e hv
    cases d <;> simp_all [Path.make]
  · intro hv
    cases d <;> simp_all [Path.make]
  · simp [Path.make]

theorem C6_default_validated_witness :
    Path.make osW "p" (.str "x") "any" Option.none false (.static (.bool true))
      = .ok (Path.build "p" (.str "x") "any" Option.none false (.static (.bool true))) :=
  (C6_default_validated_at_construction osW "p" (.str "x") "any" Option.none false
    (.static (.bool true))).2.1 rfl

/-- C7 as stated is false: the coercion condition is truthiness, not
non-nullness.  The non-null, non-callable literal `0` is falsy, so
`Text("x", default=0)` stores `0` unchanged rather than `str(0) = "0"`. -/
theorem C7_text_default_cex :
    (Text.make "x" (.static (.str "")) (.static Value.none) (.static (.int 0))
        (.static (.bool false)) (.static (.bool true)))._default
      = Spec.static (.int 0)
  ∧ Spec.static (.int 0) ≠ Spec.static (.str "0")
  ∧ pyStr (.int 0) = "0" := by
  refine ⟨rfl, ?_, ?_⟩
  · intro h
    injection h with h2
    exact Value.noConfusion h2
  · simp only [pyStr]
    rfl

/-- C7 (amended): a *truthy* non-callable default is coerced to its string
form at construction; a falsy default (including null and falsy literals
such as `0`) or a callable default is stored unchanged. -/
theorem C7_text_default_amended (n : String) (m c i vs : Spec) :
    (∀ v : Value, truthy v = true →
        (Text.make n m c (.static v) i vs)._default = Spec.static (.str (pyStr v)))
  ∧ (∀ v : Value, truthy v = false →
        (Text.make n m c (.static v) i vs)._default = Spec.static v)
  ∧ (∀ f, (Text.make n m c (.computed f) i vs)._default = Spec.computed f) := by
  refine ⟨?_, ?_, ?_⟩ <;> intros <;>
    simp_all [Text.make, Text.makeDefault, Question.make]

theorem C7_text_default_amended_witness :
    (Text.make "x" (.static (.str "")) (.static Value.none) (.static (.int 5))
        (.static (.bool false)) (.static (.bool true)))._default
      = Spec.static (.str "5") := by
  have h := (C7_text_default_amended "x" (.static (.str "")) (.static Value.none)
      (.static (.bool false)) (.static (.bool true))).1 (.int 5) rfl
  rw [h]
  simp only [pyStr]
  rfl

/-- C9: `choices` resolves the (possibly computed) choice spec against the
current answers and maps each resolved item to `TaggedValue(label, value)`
when it is a 2-element tuple, leaving any other item unchanged; each access
re-resolves and re-materializes from scratch, so it always reflects the
answers context it is read under. -/
theorem C9_choices_materialization (q : Question) :
    (∀ xs, solve q.answers q._choices [] = .ok (.list xs) →
        Question.choices q = .ok (xs.map tagChoice))
  ∧ (∀ xs, solve q.answers q._choices [] = .ok (.tuple xs) →
        Question.choices q = .ok (xs.map tagChoice))
  ∧ (∀ l v, tagChoice (.tuple [l, v]) = .tagged l v)
  ∧ (∀ x, (∀ l v, x ≠ .tuple [l, v]) → tagChoice x = x)
  ∧ (∀ f a, Question.choices { q with _choices := .computed f, answers := a }
        = materializeChoices (f a [])) := by
  refine ⟨?_, ?_, ?_, ?_, ?_⟩
  · intro xs hs; simp [Question.choices, hs, materializeChoices]
  · intro xs hs; simp [Question.choices, hs, materializeChoices]
  · intro l v; rfl
  · intro x hx
    match x with
    | .tuple [l, v] => exact absurd rfl (hx l v)
    | .none => rfl
    | .bool _ => rfl
    | .int _ => rfl
    | .str _ => rfl
    | .tagged _ _ => rfl
    | .list _ => rfl
    | .tuple [] => rfl
    | .tuple [_] => rfl
    | .tuple (_ :: _ :: _ :: _) => rfl
  · intro f a; simp [Question.choices, solve]

theorem C9_choices_materialization_witness :
    Question.choices qC9
      = .ok [.tagged (.str "Yes") (.int 1), .tagged (.str "No") (.int 0), .int 2] := by
  have h := (C9_choices_materialization qC9).1
      [.tuple [.str "Yes", .int 1], .tuple [.str "No", .int 0], .int 2] rfl
  exact h.trans rfl

/-- C4 as stated is false in one detail: the `ValidationError` raised by the
path-type check carries the *normalized* path, not the original candidate.
With home `/h`, validating the candidate `"~/"` on a `file`-typed question
(an empty final segment after expansion) raises `ValidationError("/h/")`,
not `ValidationError("~/")`. -/
theorem C4_path_segment_cex :
    Path.validate osW pFile (.str "~/") = .error (.validationError (.str "/h/"))
  ∧ Value.str "/h/" ≠ Value.str "~/" := by
  refine ⟨rfl, ?_⟩
  intro h
  injection h with h2
  exact absurd h2 (by simp)

/-- C4 (amended): for a `Path` question with `exists` unspecified and a
candidate that passes the base validation, null check and pathname-validity
check, `validate` with `path_type="file"` raises `ValidationError` (carrying
the normalized path) exactly when the normalized path's final segment is
empty, and with `path_type="directory"` exactly when the final segment is
non-empty; otherwise it returns normally. -/
theorem C4_path_segment_policy (os : OS) (p : Path) (s : String)
    (hex : p._exists = Option.none)
    (hbase : Question.validate p.q (.str s) = .ok ())
    (hvalid : is_pathname_valid os (.str (p.normalize_value os s)) = .ok true) :
    (p._path_type = "file" →
      Path.validate os p (.str s)
        = if basename (p.normalize_value os s) = ""
          then .error (.validationError (.str (p.normalize_value os s)))
          else .ok ())
  ∧ (p._path_type = "directory" →
      Path.validate os p (.str s)
        = if basename (p.normalize_value os s) = ""
          then .ok ()
          else .error (.validationError (.str (p.normalize_value os s)))) := by
  constructor
  · intro hft
    by_cases hb : basename (p.normalize_value os s) = "" <;>
      simp [Path.validate, hbase, hvalid, hex, hft, hb]
  · intro hft
    by_cases hb : basename (p.normalize_value os s) = "" <;>
      simp [Path.validate, hbase, hvalid, hex, hft, hb]

theorem C4_path_segment_policy_witness :
    Path.validate osW pDir (.str "a/b/") = .ok ()
  ∧ Path.validate osW pDir (.str "a/b")
      = .error (.validationError (.str "a/b")) := by
  have h := C4_path_segment_policy osW pDir "a/b/" rfl rfl rfl
  have h2 := C4_path_segment_policy osW pDir "a/b" rfl rfl rfl
  exact ⟨(h.2 rfl).trans (by rfl), (h2.2 rfl).trans (by rfl)⟩

/-- C10: an unrecognized `path_type` is not rejected at construction, and
`validate` then applies only the `any` existence policy: `exists=True`
demands the normalized path exist, `exists=False` demands it not exist, and
an unspecified `exists` imposes no existence constraint. -/
theorem C10_any_policy (os : OS) (p : Path) (s : String)
    (h1 : p._path_type ≠ "file") (h2 : p._path_type ≠ "directory")
    (hbase : Question.validate p.q (.str s) = .ok ())
    (hvalid : is_pathname_valid os (.str (p.normalize_value os s)) = .ok true) :
    (∀ name pt ex norm vs,
        Path.make os name Value.none pt ex norm vs
          = .ok (Path.build name Value.none pt ex norm vs))
  ∧ (p._exists = Option.none → Path.validate os p (.str s) = .ok ())
  ∧ (p._exists = some true →
        Path.validate os p (.str s)
          = if os.path_exists (p.normalize_value os s) = true then .ok ()
            else .error (.validationError (.str (p.normalize_value os s))))
  ∧ (p._exists = some false →
        Path.validate os p (.str s)
          = if os.path_exists (p.normalize_value os s) = true
            then .error (.validationError (.str (p.normalize_value os s)))
            else .ok ()) := by
  refine ⟨?_, ?_, ?_, ?_⟩
  · intro name pt ex norm vs; simp [Path.make]
  · intro hex; simp [Path.validate, hbase, hvalid, hex, h1, h2]
  · intro hex
    by_cases hpe : os.path_exists (p.normalize_value os s) = true <;>
      simp [Path.validate, hbase, hvalid, hex, h1, h2, hpe]
  · intro hex
    by_cases hpe : os.path_exists (p.normalize_value os s) = true <;>
      simp [Path.validate, hbase, hvalid, hex, h1, h2, hpe]

theorem C10_any_policy_witness :
    Path.make osW "p" Value.none "weird" Option.none false (.static (.bool true))
      = .ok pAny
  ∧ Path.validate osW pAny (.str "a") = .ok () := by
  have h := C10_any_policy osW pAny "a" (by simp [pAny, Path.build])
      (by simp [pAny, Path.build]) rfl rfl
  exact ⟨h.1 "p" "weird" Option.none false (.static (.bool true)), h.2.1 rfl⟩

/-- A single segment probe passes the checker iff `os.lstat` reports no
`ENAMETOOLONG`/`ERANGE` fault on it. -/
theorem probeOk_iff (os : OS) (x : String) :
    probe os x = true
  ↔ (∀ e, os.lstat_errno x = some e → e ≠ ENAMETOOLONG ∧ e ≠ ERANGE) := by
  unfold probe
  cases hle : os.lstat_errno x with
  | none => simp
  | some e =>
    by_cases hc : e = ENAMETOOLONG ∨ e = ERANGE
    · simp only [if_pos hc]
      constructor
      · intro h; simp at h
      · intro hr
        rcases hr e rfl with ⟨hA, hB⟩
        rcases hc with h | h
        · exact absurd h hA
        · exact absurd h hB
    · simp only [if_neg hc]
      push_neg at hc
      constructor
      · intro _ e' he'
        injection he' with he2
        subst he2
        exact ⟨hc.1, hc.2⟩
      · intro _; trivial

/-- A single segment probe fails the checker iff `os.lstat` reports an
`ENAMETOOLONG`/`ERANGE` fault on it. -/
theorem probeBad_iff (os : OS) (x : String) :
    (¬ (probe os x = true))
  ↔ (∃ e, os.lstat_errno x = some e ∧ (e = ENAMETOOLONG ∨ e = ERANGE)) := by
  rw [probeOk_iff]
  push_neg
  constructor
  · rintro ⟨e, he, hne⟩
    refine ⟨e, he, ?_⟩
    by_cases hA : e = ENAMETOOLONG
    · exact Or.inl hA
    · exact Or.inr (hne hA)
  · rintro ⟨e, he, hc⟩
    refine ⟨e, he, ?_⟩
    rcases hc with h | h
    · intro h2; exact absurd h h2
    · intro _; exact h

/-- C5: assuming the platform root directory exists, `is_pathname_valid` is
total and returns a boolean: `False` for non-string or empty input; for a
non-empty string, `True` iff no segment probe reports a name-too-long
(`ENAMETOOLONG`) or invalid-name (`ERANGE`) fault, and `False` iff some
segment probe reports one — any other probe outcome is ignored. -/
theorem C5_pathname_checker (os : OS) (v : Value) (hroot : os.isdir "/" = true) :
    (∃ b, is_pathname_valid os v = .ok b)
  ∧ ((∀ s, v ≠ .str s) → is_pathname_valid os v = .ok false)
  ∧ (v = .str "" → is_pathname_valid os v = .ok false)
  ∧ (∀ s, v = .str s → s ≠ "" →
      (is_pathname_valid os v = .ok true ↔
        ∀ part ∈ splitSlash s, ∀ e, os.lstat_errno ("/" ++ part) = some e →
          e ≠ ENAMETOOLONG ∧ e ≠ ERANGE))
  ∧ (∀ s, v = .str s → s ≠ "" →
      (is_pathname_valid os v = .ok false ↔
        ∃ part ∈ splitSlash s, ∃ e, os.lstat_errno ("/" ++ part) = some e ∧
          (e = ENAMETOOLONG ∨ e = ERANGE))) := by
  refine ⟨?_, ?_, ?_, ?_, ?_⟩
  · cases v with
    | str s =>
      by_cases hs0 : s = ""
      · exact ⟨false, by simp [is_pathname_valid, hs0]⟩
      · refine ⟨(splitSlash s).all fun part => probe os ("/" ++ part), ?_⟩
        show (if s = "" then Except.ok false
              else if os.isdir "/" = false then Except.error PyErr.assertionError
              else Except.ok ((splitSlash s).all fun part => probe os ("/" ++ part))) = _
        rw [if_neg hs0, if_neg (by simp [hroot])]
    | none => exact ⟨false, rfl⟩
    | bool b => exact ⟨false, rfl⟩
    | int n => exact ⟨false, rfl⟩
    | tuple xs => exact ⟨false, rfl⟩
    | list xs => exact ⟨false, rfl⟩
    | tagged l w => exact ⟨false, rfl⟩
  · intro hns
    cases v with
    | str s => exact absurd rfl (hns s)
    | none => rfl
    | bool b => rfl
    | int n => rfl
    | tuple xs => rfl
    | list xs => rfl
    | tagged l w => rfl
  · intro h0; subst h0; rfl
  · intro s hv hs0
    subst hv
    have hval : is_pathname_valid os (.str s)
        = .ok ((splitSlash s).all fun part => probe os ("/" ++ part)) := by
      show (if s = "" then Except.ok false
            else if os.isdir "/" = false then Except.error PyErr.assertionError
            else Except.ok ((splitSlash s).all fun part => probe os ("/" ++ part))) = _
      rw [if_neg hs0, if_neg (by simp [hroot])]
    rw [hval]
    simp only [Except.ok.injEq]
    rw [List.all_eq_true]
    constructor
    · intro h part hp
      exact (probeOk_iff os ("/" ++ part)).1 (h part hp)
    · intro h part hp
      exact (probeOk_iff os ("/" ++ part)).2 (h part hp)
  · intro s hv hs0
    subst hv
    have hval : is_pathname_valid os (.str s)
        = .ok ((splitSlash s).all fun part => probe os ("/" ++ part)) := by
      show (if s = "" then Except.ok false
            else if os.isdir "/" = false then Except.error PyErr.assertionError
            else Except.ok ((splitSlash s).all fun part => probe os ("/" ++ part))) = _
      rw [if_neg hs0, if_neg (by simp [hroot])]
    rw [hval]
    simp only [Except.ok.injEq]
    rw [List.all_eq_false]
    constructor
    · rintro ⟨part, hp, hbad⟩
      exact ⟨part, hp, (probeBad_iff os ("/" ++ part)).1 hbad⟩
    · rintro ⟨part, hp, hbad⟩
      exact ⟨part, hp, (probeBad_iff os ("/" ++ part)).2 hbad⟩

theorem C5_pathname_checker_witness :
    is_pathname_valid osW (.str "a/b") = .ok true
  ∧ is_pathname_valid osW (.int 3) = .ok false := by
  constructor
  · exact ((C5_pathname_checker osW (.str "a/b") rfl).2.2.2.1 "a/b" rfl
      (by simp)).2 (by intro part hp e he; simp [osW] at he)
  · exact (C5_pathname_checker osW (.int 3) rfl).2.1 (by intro s h; exact Value.noConfusion h)

/-- Elementwise commutativity lifts to `pyEqList`. -/
theorem pyEqList_comm_of (xs : List Value) : ∀ (ys : List Value),
    (∀ x ∈ xs, ∀ y ∈ ys, pyEqCore (strip x) (strip y) = pyEqCore (strip y) (strip x)) →
    pyEqList xs ys = pyEqList ys xs := by
  induction xs with
  | nil => intro ys _; cases ys <;> simp [pyEqList]
  | cons x xs ih =>
    intro ys h
    cases ys with
    | nil => simp [pyEqList]
    | cons y ys =>
      simp only [pyEqList]
      rw [h x (by simp) y (by simp),
        ih ys (fun a ha b hb => h a (by simp [ha]) b (by simp [hb]))]

/-- Python `==` on the modelled values is symmetric (strong induction on
combined size). -/
theorem pyEqCore_comm_aux : ∀ (n : Nat) (a b : Value), sizeOf a + sizeOf b ≤ n →
    pyEqCore a b = pyEqCore b a := by
  intro n
  induction n with
  | zero =>
    intro a b h
    exfalso
    cases a <;> simp at h
  | succ n ih =>
    intro a b h
    cases a <;> cases b <;> simp only [pyEqCore] <;>
      first
        | rfl
        | simp [eq_comm]
        | (apply pyEqList_comm_of
           intro x hx y hy
           have h1 := List.sizeOf_lt_of_mem hx
           have h2 := List.sizeOf_lt_of_mem hy
           have h3 := strip_sizeOf_le x
           have h4 := strip_sizeOf_le y
           apply ih
           simp at h
           omega)

theorem pyEqCore_comm (a b : Value) : pyEqCore a b = pyEqCore b a :=
  pyEqCore_comm_aux (sizeOf a + sizeOf b) a b le_rfl

/-- C8: `TaggedValue` equality is value-only and symmetric: comparing a
tagged pair with anything compares its value with the other operand (the
label never participates); two tagged pairs are equal iff their values are;
`!=` is the exact negation of `==`; and the spec's concrete instances hold:
`TaggedPair("Yes",1) == TaggedPair("No",1)`, `TaggedPair("Yes",1) == 1` and
`1 == TaggedPair("Yes",1)`. -/
theorem C8_tagged_equality (l v x : Value) :
    (pyEq (.tagged l v) x = pyEq v x)
  ∧ (pyEq x (.tagged l v) = pyEq v x)
  ∧ (∀ m w, pyEq (.tagged l v) (.tagged m w) = pyEq v w)
  ∧ (∀ y, pyNe (.tagged l v) y = !(pyEq (.tagged l v) y))
  ∧ (pyEq (.tagged (.str "Yes") (.int 1)) (.tagged (.str "No") (.int 1)) = true)
  ∧ (pyEq (.tagged (.str "Yes") (.int 1)) (.int 1) = true
      ∧ pyEq (.int 1) (.tagged (.str "Yes") (.int 1)) = true) := by
  refine ⟨rfl, ?_, fun m w => rfl, fun y => rfl, ?_, ?_, ?_⟩
  · show pyEqCore (strip x) (strip v) = pyEqCore (strip v) (strip x)
    exact pyEqCore_comm _ _
  · simp [pyEq, strip, pyEqCore]
  · simp [pyEq, strip, pyEqCore]
  · simp [pyEq, strip, pyEqCore]

/-- `toList` distributes over string append. -/
theorem toList_append (a b : String) : (a ++ b).toList = a.toList ++ b.toList := rfl

/-- A well-formed literal run contains no braces. -/
theorem chunkOk_lit_mem (s : String) (h : chunkOk (.lit s) = true) :
    ∀ c ∈ s.toList, ¬(c = '{' ∨ c = '}') := by
  intro c hc
  simp only [chunkOk] at h
  have h2 : (if c = '{' ∨ c = '}' then false else true) = true :=
    List.all_eq_true.1 h c hc
  by_cases hcc : c = '{' ∨ c = '}'
  · rw [if_pos hcc] at h2; cases h2
  · exact hcc

/-- A well-formed placeholder name is not a positional (all-digit) field. -/
theorem chunkOk_ref_digits (n : String) (h : chunkOk (.ref n) = true) :
    n.toList.all Char.isDigit = false := by
  simp only [chunkOk, Bool.and_eq_true, Bool.not_eq_eq_eq_not, Bool.not_true] at h
  exact h.1

/-- A well-formed placeholder name uses only allowed characters. -/
theorem chunkOk_ref_chars (n : String) (h : chunkOk (.ref n) = true) :
    ∀ c ∈ n.toList, nameCharOk c = true := by
  simp only [chunkOk, Bool.and_eq_true] at h
  exact fun c hc => List.all_eq_true.1 h.2 c hc

/-- A well-formed placeholder name is non-empty. -/
theorem chunkOk_ref_ne_nil (n : String) (h : chunkOk (.ref n) = true) :
    n.toList ≠ [] := by
  intro h0
  have := chunkOk_ref_digits n h
  rw [h0] at this
  cases this

/-- An allowed name character is not a brace. -/
theorem nameCharOk_not_brace (c : Char) (h : nameCharOk c = true) :
    ¬(c = '{') ∧ ¬(c = '}') := by
  simp only [nameCharOk] at h
  by_cases hc : c = '{' ∨ c = '}' ∨ c = ':' ∨ c = '!' ∨ c = '.' ∨ c = '['
  · rw [if_pos hc] at h; cases h
  · push_neg at hc
    exact ⟨hc.1, hc.2.1⟩

/-- Scanning a brace-free literal run emits it verbatim and continues. -/
theorem pyFmtA_lit (ctx : Ctx) (l : List Char) : ∀ (rest : List Char),
    (∀ c ∈ l, ¬(c = '{' ∨ c = '}')) →
    pyFmtA ctx Option.none (l ++ rest)
      = match pyFmtA ctx Option.none rest with
        | .ok t => .ok (l ++ t)
        | .error e => .error e := by
  induction l with
  | nil =>
    intro rest _
    cases h' : pyFmtA ctx Option.none rest <;> simp [h']
  | cons c l2 ih =>
    intro rest h
    have hc := h c (by simp)
    push_neg at hc
    rw [List.cons_append]
    rw [show pyFmtA ctx Option.none (c :: (l2 ++ rest))
        = match pyFmtA ctx Option.none (l2 ++ rest) with
          | .ok t => .ok (c :: t)
          | .error e => .error e from by simp [pyFmtA, hc.1, hc.2]]
    rw [ih rest (fun a ha => h a (by simp [ha]))]
    cases h' : pyFmtA ctx Option.none rest <;> simp [h']

/-- Scanning a field body accumulates the allowed name characters up to the
closing brace, then resolves the assembled name. -/
theorem pyFmtA_field (ctx : Ctx) (nm : List Char) : ∀ (acc rest : List Char),
    (∀ c ∈ nm, nameCharOk c = true) →
    pyFmtA ctx (some acc) (nm ++ '}' :: rest)
      = (if (acc.reverse ++ nm).all Char.isDigit then .error .other
         else match ctxGet ctx (String.mk (acc.reverse ++ nm)) with
           | some v =>
             match pyFmtA ctx Option.none rest with
             | .ok t => .ok ((pyStr v).toList ++ t)
             | .error e => .error e
           | Option.none => .error (.keyError (String.mk (acc.reverse ++ nm)))) := by
  induction nm with
  | nil =>
    intro acc rest _
    simp only [List.nil_append, List.append_nil]
    simp [pyFmtA]
  | cons c nm2 ih =>
    intro acc rest hok
    have hc := nameCharOk_not_brace c (hok c (by simp))
    rw [List.cons_append]
    rw [show pyFmtA ctx (some acc) (c :: (nm2 ++ '}' :: rest))
        = pyFmtA ctx (some (c :: acc)) (nm2 ++ '}' :: rest) from by
          simp [pyFmtA, hc.1, hc.2]]
    rw [ih (c :: acc) rest (fun a ha => hok a (by simp [ha]))]
    simp [List.reverse_cons, List.append_assoc]

/-- The scanner agrees with the spec-side substitution on every well-formed
template, chunk by chunk. -/
theorem pyFmtA_tmpl (ctx : Ctx) : ∀ (cs : List Chunk),
    (∀ c ∈ cs, chunkOk c = true) →
    pyFmtA ctx Option.none (tmplStr cs).toList
      = match specSubst ctx cs with
        | .ok r => .ok r.toList
        | .error e => .error e := by
  intro cs
  induction cs with
  | nil => intro _; rfl
  | cons c cs2 ih =>
    intro h
    have hc := h c (by simp)
    have ih2 := ih (fun a ha => h a (by simp [ha]))
    cases c with
    | lit s =>
      have hlist : (tmplStr (Chunk.lit s :: cs2)).toList
          = s.toList ++ (tmplStr cs2).toList := by
        simp [tmplStr, chunkText, toList_append]
      rw [hlist, pyFmtA_lit ctx s.toList _ (chunkOk_lit_mem s hc), ih2]
      cases h' : specSubst ctx cs2 <;> simp [specSubst, h', toList_append]
    | ref n =>
      have hne := chunkOk_ref_ne_nil n hc
      have hdig := chunkOk_ref_digits n hc
      have hchars := chunkOk_ref_chars n hc
      have hlist : (tmplStr (Chunk.ref n :: cs2)).toList
          = '{' :: (n.toList ++ ('}' :: (tmplStr cs2).toList)) := by
        simp [tmplStr, chunkText, toList_append]
      obtain ⟨c0, ntail, hn⟩ : ∃ c0 ntail, n.toList = c0 :: ntail := by
        cases hcase : n.toList with
        | nil => exact absurd hcase hne
        | cons a b => exact ⟨a, b, rfl⟩
      have hc0 := nameCharOk_not_brace c0 (hchars c0 (by rw [hn]; simp))
      rw [hlist]
      rw [show pyFmtA ctx Option.none ('{' :: (n.toList ++ '}' :: (tmplStr cs2).toList))
          = pyFmtA ctx (some []) (n.toList ++ '}' :: (tmplStr cs2).toList) from by
            rw [hn]; simp [pyFmtA, hc0.1]]
      rw [pyFmtA_field ctx n.toList [] ((tmplStr cs2).toList) hchars]
      simp only [List.reverse_nil, List.nil_append]
      rw [if_neg (by rw [hdig]; simp)]
      have hmk : String.mk n.toList = n := rfl
      rw [hmk]
      cases hg : ctxGet ctx n with
      | some v =>
        rw [ih2]
        cases h' : specSubst ctx cs2 <;> simp [specSubst, hg, h', toList_append]
      | none => simp [specSubst, hg]

/-- A template referencing a missing name fails with the `KeyError` of a
missing referenced name. -/
theorem specSubst_missing (ctx : Ctx) : ∀ (cs : List Chunk),
    (∃ n ∈ chunkRefs cs, ctxGet ctx n = Option.none) →
    ∃ m ∈ chunkRefs cs, specSubst ctx cs = .error (.keyError m) ∧
      ctxGet ctx m = Option.none := by
  intro cs
  induction cs with
  | nil =>
    rintro ⟨n, hn, _⟩
    cases hn
  | cons c cs2 ih =>
    rintro ⟨n, hn, hno⟩
    cases c with
    | lit s =>
      obtain ⟨m, hm, hsub, hmo⟩ := ih ⟨n, by simpa [chunkRefs] using hn, hno⟩
      exact ⟨m, by simpa [chunkRefs] using hm, by simp [specSubst, hsub], hmo⟩
    | ref k =>
      cases hg : ctxGet ctx k with
      | none => exact ⟨k, by simp [chunkRefs], by simp [specSubst, hg], hg⟩
      | some v =>
        have hn2 : n ∈ chunkRefs cs2 := by
          rcases (by simpa [chunkRefs] using hn : n = k ∨ n ∈ chunkRefs cs2) with h1 | h1
          · subst h1
            rw [hno] at hg
            cases hg
          · exact h1
        obtain ⟨m, hm, hsub, hmo⟩ := ih ⟨n, hn2, hno⟩
        exact ⟨m, by simp [chunkRefs, hm], by simp [specSubst, hg, hsub], hmo⟩

/-- C3: resolving a string (template) property spec substitutes each named
placeholder with the stringified value looked up in the context by that name
(`solve` agrees with the spec-side `specSubst` on every well-formed
template), and whenever the template references a name absent from the
context the resolution fails with the `TemplateResolutionError`
(`PyErr.keyError`) of a missing referenced name — surfaced by `solve`, not
swallowed. -/
theorem C3_template_resolution (ctx : Ctx) (cs : List Chunk)
    (h : ∀ c ∈ cs, chunkOk c = true) :
    (solve ctx (.static (.str (tmplStr cs))) []
      = match specSubst ctx cs with
        | .ok r => .ok (.str r)
        | .error e => .error e)
  ∧ ((∃ n ∈ chunkRefs cs, ctxGet ctx n = Option.none) →
      ∃ m ∈ chunkRefs cs, specSubst ctx cs = .error (.keyError m) ∧
        ctxGet ctx m = Option.none) := by
  constructor
  · show (match pyFormat ctx (tmplStr cs) with
          | .ok r => Except.ok (Value.str r)
          | .error e => Except.error e) = _
    unfold pyFormat
    rw [pyFmtA_tmpl ctx cs h]
    cases h' : specSubst ctx cs <;> simp
  · exact specSubst_missing ctx cs

theorem C3_template_resolution_witness :
    solve ctxW (.static (.str (tmplStr csW))) [] = .ok (.str "hi Ada")
  ∧ solve [] (.static (.str (tmplStr csW))) [] = .error (.keyError "name") := by
  constructor
  · have h := (C3_template_resolution ctxW csW (by decide)).1
    rw [h]
    simp [specSubst, csW, ctxW, ctxGet, pyStr]
  · have h := (C3_template_resolution [] csW (by decide)).1
    rw [h]
    simp [specSubst, csW, ctxGet]

end Inquirer
